import Mathlib

/-!
Verification development for `auto_history_pipeline_timecode.py`.

Python strings are embedded as `List Char`. Each `def` below mirrors one
function (or one inline expression) of the source file; machine behaviour of
Python string methods (`split`, `strip`, `join`, `replace`, `startswith`) is
reproduced by explicit recursive definitions. External collaborators
(the `wikipedia` package and the OpenAI client) are modelled as oracles held
in an `Env` record: a `Bool` capability flag for each optional import, the
`OPENAI_API_KEY` environment variable as an `Option`, and the two network
calls as functions returning `Except` (the `.error` case standing for any
raised exception).
-/

abbrev Str := List Char

/-- Python whitespace test used by `str.strip()` (ASCII whitespace). -/
def isSpaceChar (c : Char) : Bool :=
  c == ' ' || c == '\t' || c == '\n' || c == '\r' || c == '\x0b' || c == '\x0c'

/-- Python `s.strip()`: drop leading and trailing whitespace. -/
def strip (s : Str) : Str :=
  ((s.dropWhile isSpaceChar).reverse.dropWhile isSpaceChar).reverse

/-- Python `s.split(sep)` for a one-character separator: keeps empty pieces. -/
def splitOnChar (sep : Char) : Str → List Str
  | [] => [[]]
  | c :: cs =>
    match splitOnChar sep cs with
    | [] => [[]]
    | h :: t => if c == sep then [] :: h :: t else (c :: h) :: t

/-- Character-level action of Python `s.replace("\n", " ")`. -/
def nlToSp (c : Char) : Char := if c == '\n' then ' ' else c

/-- Python `s.replace("\n", " ")` (single-character pattern, so a plain map). -/
def replaceNl (s : Str) : Str := s.map nlToSp

/-- Python `s.startswith(p)`. -/
def pyStartsWith : Str → Str → Bool
  | _, [] => true
  | [], _ :: _ => false
  | c :: cs, p :: ps => (c == p) && pyStartsWith cs ps

/-- Python `s.endswith(p)`. -/
def pyEndsWith (s p : Str) : Bool := pyStartsWith s.reverse p.reverse

/-- Python `p in s` substring test. -/
def hasSubstr : Str → Str → Bool
  | [], p => p.isEmpty
  | c :: cs, p => pyStartsWith (c :: cs) p || hasSubstr cs p

/-- Python `sep.join(l)`. -/
def joinSep (sep : Str) : List Str → Str
  | [] => []
  | [x] => x
  | x :: xs => x ++ sep ++ joinSep sep xs

/-- The comprehension `[s.strip() for s in p.split('.') if s.strip()]`. -/
def periodSents (p : Str) : List Str :=
  ((splitOnChar '.' p).map strip).filter (fun t => !t.isEmpty)

/-- Sentence extraction used by all three fallback formatters:
`[s.strip() for s in summary.replace("\n", " ").split('.') if s.strip()]`. -/
def sentSplit (summary : Str) : List Str := periodSents (replaceNl summary)

/-- The comprehension `[p.strip() for p in script_text.split('\n') if p.strip()]`. -/
def linesOf (s : Str) : List Str :=
  ((splitOnChar '\n' s).map strip).filter (fun t => !t.isEmpty)

/-- The segmenter's points list: cap at 3 entries, then pad with `""` up to 3. -/
def padTo3 (l : List Str) : List Str :=
  l.take 3 ++ List.replicate (3 - (l.take 3).length) []

/-- One segment of the 60-second layout, as built by `split_script_to_segments`. -/
structure Segment where
  role : Str
  text : Str
  duration : Nat
  start : Nat
  «end» : Nat
deriving DecidableEq

/-- The final loop of `split_script_to_segments`: assign `start`/`end` by a
running cursor, `end = start + duration`. -/
def assignTimes : Nat → List (Str × Str × Nat) → List Segment
  | _, [] => []
  | cur, (r, t, d) :: rest => ⟨r, t, d, cur, cur + d⟩ :: assignTimes (cur + d) rest

/-- Mirrors `split_script_to_segments(script_text, lang)` (source lines 166-189).
The `lang` parameter is accepted and unused, exactly as in the source. -/
def split_script_to_segments (script_text : Str) (lang : Str) : List Segment :=
  let parts := linesOf script_text
  let hook := parts.headD []
  let middle := if parts.length > 2 then (parts.drop 1).dropLast else parts.drop 1
  let cta := if parts.length > 1 then parts.getLastD [] else []
  let points := padTo3 (List.flatten (middle.map periodSents))
  assignTimes 0
    [(("hook".data), hook, 8),
     (("point1".data), points.getD 0 [], 15),
     (("point2".data), points.getD 1 [], 15),
     (("point3".data), points.getD 2 [], 15),
     (("cta".data), cta, 7)]

/-- Mirrors `local_fallback_formatter_long(topic, summary, lang)`
(source lines 128-137). Note the source joins `sents[1:6]` with a single
space (`" ".join`), not with a period-space. -/
def local_fallback_formatter_long (topic summary lang : Str) : Str :=
  let sents := sentSplit summary
  let intro :=
    match sents with
    | [] => topic ++ (" là một chủ đề lịch sử thú vị.".data)
    | s :: _ => s
  let middle := joinSep (" ".data) ((sents.drop 1).take 5)
  let closing := sents.getD 6 []
  if pyStartsWith lang ("vi".data) then
    intro ++ (". ".data) ++ middle ++ (". ".data) ++ closing ++
      (". Nếu bạn muốn tìm hiểu sâu hơn, hãy theo dõi kênh để xem các video tiếp theo.".data)
  else
    intro ++ (". ".data) ++ middle ++ (". ".data) ++ closing ++
      (". If you want to learn more, subscribe for future videos.".data)

/-- Mirrors `local_fallback_formatter_fromsummary(summary, lang)`
(source lines 139-146). The source joins `sents[:6]` with a single space. -/
def local_fallback_formatter_fromsummary (summary lang : Str) : Str :=
  let sents := sentSplit summary
  let pts := sents.take 6
  if pyStartsWith lang ("vi".data) then
    joinSep (" ".data) pts ++ (" Nguồn: Wikipedia.".data)
  else
    joinSep (" ".data) pts ++ (" Sources: Wikipedia.".data)

/-- Mirrors `local_fallback_formatter_short(topic, summary, lang)`
(source lines 148-163). -/
def local_fallback_formatter_short (topic summary lang : Str) : Str :=
  let sents := sentSplit summary
  let p1 :=
    match sents with
    | [] => topic ++ (" có nhiều điều thú vị.".data)
    | s :: _ => s
  let p2 := sents.getD 1 []
  let p3 := sents.getD 2 []
  if pyStartsWith lang ("vi".data) then
    (("Bạn có biết về ".data) ++ topic ++ ("?".data)) ++ ("\n\n".data) ++
      (("Ý 1: ".data) ++ p1 ++ (". Ý 2: ".data) ++ p2 ++ (". Ý 3: ".data) ++ p3 ++ (".".data)) ++
      ("\n\n".data) ++ ("Nếu bạn thích, hãy like và theo dõi.".data)
  else
    (("Did you know about ".data) ++ topic ++ ("?".data)) ++ ("\n\n".data) ++
      (("Point 1: ".data) ++ p1 ++ (". Point 2: ".data) ++ p2 ++ (". Point 3: ".data) ++ p3 ++
        (".".data)) ++ ("\n\n".data) ++ ("Like and subscribe for more.".data)

/-- `PROMPT_LONG[k].format(TOPIC=topic)`: the prompt-catalog entry for the
long variant with the topic substituted (source lines 46-62). -/
def PROMPT_LONG (k : Str) (topic : Str) : Str :=
  if k = ("vi".data) then
    ("Bạn là một nhà biên soạn nội dung lịch sử. Hãy viết một kịch bản tường thuật dài 300–500 từ về chủ đề: \"".data) ++
      topic ++
      ("\".\nYêu cầu:\n- Mở đầu gây tò mò, có câu hook hấp dẫn.\n- Trình bày mạch lạc theo thời gian, có cao trào.\n- Dùng ngôn từ dễ hiểu, phù hợp video YouTube (độ dài ~5-8 phút khi đọc chậm).\n- Kết thúc có tính gợi mở để người xem muốn tìm hiểu thêm.\nNgôn ngữ: Tiếng Việt.\nTrả về plain text.".data)
  else
    ("You are a historical content writer. Write a 300–500 word narrative script about: \"".data) ++
      topic ++
      ("\".\nRequirements:\n- Start with a compelling hook.\n- Present chronologically with a climax.\n- Use clear language suitable for a YouTube narration.\n- End with a thought-provoking closing inviting further exploration.\nReturn plain text.".data)

/-- `PROMPT_FROM_SUMMARY[k].format(SUMMARY=summary)` (source lines 64-85). -/
def PROMPT_FROM_SUMMARY (k : Str) (summary : Str) : Str :=
  if k = ("vi".data) then
    ("Bạn nhận được một đoạn tóm tắt Wikipedia sau:\n\n\"".data) ++ summary ++
      ("\"\n\nHãy chuyển nội dung này thành một kịch bản kể chuyện lịch sử (300–400 từ) theo phong cách gần gũi, như một người dẫn chuyện trên video.\n- Giữ tính chính xác nhưng giảm khô khan.\n- Thêm chi tiết thú vị hoặc ngữ cảnh lịch sử nếu thích hợp.\n- Giữ giọng văn hấp dẫn, phù hợp khán giả phổ thông.\nNgôn ngữ: Tiếng Việt.\nTrả về plain text.".data)
  else
    ("You receive the following Wikipedia summary:\n\n\"".data) ++ summary ++
      ("\"\n\nConvert this into a 300–400 word historical storytelling script in a friendly, narrator style suitable for a video.\n- Keep accuracy but reduce dryness.\n- Add interesting details or context where relevant.\n- Maintain an engaging tone for a general audience.\nLanguage: English.\nReturn plain text.".data)

/-- `PROMPT_SHORT[k].format(TOPIC=topic)` (source lines 87-102). -/
def PROMPT_SHORT (k : Str) (topic : Str) : Str :=
  if k = ("vi".data) then
    ("Bạn là storyteller. Viết kịch bản ngắn (100–150 từ) về \"".data) ++ topic ++
      ("\" để dùng cho video Shorts/TikTok (khoảng 1 phút).\nYêu cầu:\n- Bắt đầu bằng 1 câu hỏi hoặc 1 sự thật gây tò mò.\n- Trình bày nhanh, rõ ràng: 3 ý ngắn (mỗi ý 1 câu).\n- Kết thúc 1 câu CTA (kêu gọi like/subscribe hoặc \"xem tiếp\").\nNgôn ngữ: Tiếng Việt.\nTrả về plain text.".data)
  else
    ("You are a storyteller. Write a short 100–150 word script about \"".data) ++ topic ++
      ("\" for a Shorts/TikTok (~1 minute).\nRequirements:\n- Start with a question or striking fact.\n- Present 3 concise points (one sentence each).\n- End with a CTA (subscribe/like or \"learn more\").\nLanguage: English.\nReturn plain text.".data)

/-- The three generated scripts (`scripts` dict of `generate_three_scripts`);
every code path assigns all three keys, so the fields are plain strings. -/
structure ScriptSet where
  long : Str
  from_summary : Str
  short : Str
deriving DecidableEq

/-- Process environment and external collaborators:
`WIKI_AVAILABLE` / `OPENAI_AVAILABLE` import flags, `os.getenv("OPENAI_API_KEY")`,
and the two opaque network calls, whose `.error` case stands for any raised
exception (network/service error or malformed response). -/
structure Env where
  wiki_available : Bool
  wiki_fetch : Str → Str → Except Str (Str × Str)
  openai_available : Bool
  api_key : Option Str
  openai_call : Str → Except Str Str

/-- Python truthiness of `os.getenv(...)`: `None` and `""` are falsy. -/
def truthy : Option Str → Bool
  | none => false
  | some s => !s.isEmpty

/-- `lang_key = 'vi' if lang.startswith('vi') else 'en'` (source line 193). -/
def lang_key (lang : Str) : Str :=
  if pyStartsWith lang ("vi".data) then ("vi".data) else ("en".data)

/-- Mirrors `call_openai(prompt)` (source lines 113-126): raises when the
package is missing or the key is unset/empty, otherwise performs the opaque
service call and returns the response content stripped. -/
def call_openai (env : Env) (prompt : Str) : Except Str Str :=
  if env.openai_available = false then
    Except.error ("openai package not installed. pip install openai".data)
  else
    match env.api_key with
    | none => Except.error ("OPENAI_API_KEY not set.".data)
    | some key =>
      if key.isEmpty then Except.error ("OPENAI_API_KEY not set.".data)
      else
        match env.openai_call prompt with
        | Except.ok content => Except.ok (strip content)
        | Except.error e => Except.error e

/-- Mirrors `fetch_wikipedia_summary(topic, lang, sentences=6)`
(source lines 105-111): raises when the package is missing, otherwise the
opaque fetch returns `(summary, page_content_prefix)` or raises. -/
def fetch_wikipedia_summary (env : Env) (topic lang : Str) : Except Str (Str × Str) :=
  if env.wiki_available = false then
    Except.error ("Package wikipedia không có. Cài: pip install wikipedia".data)
  else
    env.wiki_fetch topic lang

/-- Mirrors `generate_three_scripts(topic, summary, lang)` (source lines
192-222). Each variant independently: if `OPENAI_AVAILABLE and
os.getenv("OPENAI_API_KEY")`, try the external call and on any exception fall
back; otherwise use the local fallback formatter directly. -/
def generate_three_scripts (env : Env) (topic summary lang : Str) : ScriptSet :=
  let lk := lang_key lang
  let l :=
    if env.openai_available && truthy env.api_key then
      match call_openai env (PROMPT_LONG lk topic) with
      | Except.ok s => s
      | Except.error _ => local_fallback_formatter_long topic summary lang
    else local_fallback_formatter_long topic summary lang
  let fs :=
    if env.openai_available && truthy env.api_key then
      match call_openai env (PROMPT_FROM_SUMMARY lk summary) with
      | Except.ok s => s
      | Except.error _ => local_fallback_formatter_fromsummary summary lang
    else local_fallback_formatter_fromsummary summary lang
  let sh :=
    if env.openai_available && truthy env.api_key then
      match call_openai env (PROMPT_SHORT lk topic) with
      | Except.ok s => s
      | Except.error _ => local_fallback_formatter_short topic summary lang
    else local_fallback_formatter_short topic summary lang
  ⟨l, fs, sh⟩

/-- The per-topic record assembled by `process_topic` (the `meta` dict of
source lines 260-266; file writing is outside the embedded core). -/
structure TopicRecord where
  topic : Str
  lang : Str
  summary : Str
  scripts : ScriptSet
  segments : List Segment
deriving DecidableEq

/-- Mirrors the computational core of `process_topic(topic, lang, out_folder,
use_ai)` (source lines 225-269): fetch the summary, degrading to the
diagnostic placeholder `"[Không lấy được Wikipedia. Lý do: {e}]"` on any
exception, generate the three scripts, segment the short script, and assemble
the record. `use_ai` is accepted and never read, exactly as in the source;
directory creation and the two file writes are external I/O and not part of
the record. -/
def process_topic (env : Env) (topic lang : Str) (use_ai : Bool) : TopicRecord :=
  let sf :=
    match fetch_wikipedia_summary env topic lang with
    | Except.ok r => r
    | Except.error e => (("[Không lấy được Wikipedia. Lý do: ".data) ++ e ++ ("]".data), [])
  let summary := sf.1
  let scripts := generate_three_scripts env topic summary lang
  let segments := split_script_to_segments scripts.short lang
  ⟨topic, lang, summary, scripts, segments⟩

/-- Outcome of `main()`: argparse exits with a usage error when the required
`--topics` flag is missing; otherwise every parsed topic is processed. -/
inductive MainResult where
  | usage_error : MainResult
  | completed : List TopicRecord → MainResult
deriving DecidableEq

/-- `[t.strip() for t in args.topics.split(',') if t.strip()]` (source line 278). -/
def parse_topics (s : Str) : List Str :=
  ((splitOnChar ',' s).map strip).filter (fun t => !t.isEmpty)

/-- Mirrors `main()` (source lines 271-283): `--topics` is `required=True`, so
a missing value is an argparse usage failure; a provided value is split on
commas, blank entries are dropped, and each remaining topic is processed with
`use_ai = not args.no_ai`. -/
def mainRun (env : Env) (topics_arg : Option Str) (lang out_folder : Str) (no_ai : Bool) :
    MainResult :=
  match topics_arg with
  | none => MainResult.usage_error
  | some ts =>
      MainResult.completed
        ((parse_topics ts).map (fun t => process_topic env t lang (!no_ai)))

/-- Environment with neither optional package importable: both external calls
are unreachable and every variant takes the deterministic fallback. -/
def env0 : Env where
  wiki_available := false
  wiki_fetch := fun _ _ => Except.error []
  openai_available := false
  api_key := none
  openai_call := fun _ => Except.error []

/-- Environment where the OpenAI path is fully configured and the service
responds successfully with a whitespace-only message content. -/
def envWS : Env where
  wiki_available := false
  wiki_fetch := fun _ _ => Except.error []
  openai_available := true
  api_key := some ("k".data)
  openai_call := fun _ => Except.ok (" ".data)

/-- Fixed schedule of the segmenter: roles, durations, starts, ends and length
do not depend on the input text. -/
theorem seg_sched (s lang : Str) :
    (split_script_to_segments s lang).map Segment.role =
      [("hook".data), ("point1".data), ("point2".data), ("point3".data), ("cta".data)] ∧
    (split_script_to_segments s lang).map Segment.duration = [8, 15, 15, 15, 7] ∧
    (split_script_to_segments s lang).map Segment.start = [0, 8, 23, 38, 53] ∧
    (split_script_to_segments s lang).map Segment.«end» = [8, 23, 38, 53, 60] ∧
    (split_script_to_segments s lang).length = 5 :=
  ⟨rfl, rfl, rfl, rfl, rfl⟩

/-- A list append with a non-empty right part is non-empty. -/
theorem append_ne_nil_right (a b : Str) (hb : b ≠ []) : a ++ b ≠ [] := by
  intro h
  exact hb (List.append_eq_nil.mp h).2

/-- A string starts with its own first part. -/
theorem pyStartsWith_append (x y : Str) : pyStartsWith (x ++ y) x = true := by
  induction x with
  | nil => simp [pyStartsWith]
  | cons c cs ih => simp [pyStartsWith, ih]

/-- A string ends with its own last part. -/
theorem pyEndsWith_append (a p : Str) : pyEndsWith (a ++ p) p = true := by
  unfold pyEndsWith
  rw [List.reverse_append]
  exact pyStartsWith_append p.reverse a.reverse

/-- Replacing newlines by spaces is idempotent on characters. -/
theorem nlToSp_idem (c : Char) : nlToSp (nlToSp c) = nlToSp c := by
  by_cases h : c = '\n'
  · subst h; decide
  · simp [nlToSp, h]

/-- Replacing newlines by spaces is idempotent on strings. -/
theorem replaceNl_idem (s : Str) : replaceNl (replaceNl s) = replaceNl s := by
  induction s with
  | nil => rfl
  | cons c cs ih =>
    simp only [replaceNl, List.map_cons] at ih ⊢
    rw [nlToSp_idem, ih]

/-- Sentence extraction is blind to a prior newline normalization. -/
theorem sentSplit_replaceNl (s : Str) : sentSplit (replaceNl s) = sentSplit s := by
  unfold sentSplit
  rw [replaceNl_idem]

/-- The long fallback formatter never returns an empty string. -/
theorem long_ne_nil (topic summary lang : Str) :
    local_fallback_formatter_long topic summary lang ≠ [] := by
  simp only [local_fallback_formatter_long]
  by_cases h : pyStartsWith lang ("vi".data) = true
  · rw [if_pos h]
    exact append_ne_nil_right _ _ (by decide)
  · rw [if_neg h]
    exact append_ne_nil_right _ _ (by decide)

/-- The from-summary fallback formatter never returns an empty string. -/
theorem fromsummary_ne_nil (summary lang : Str) :
    local_fallback_formatter_fromsummary summary lang ≠ [] := by
  simp only [local_fallback_formatter_fromsummary]
  by_cases h : pyStartsWith lang ("vi".data) = true
  · rw [if_pos h]
    exact append_ne_nil_right _ _ (by decide)
  · rw [if_neg h]
    exact append_ne_nil_right _ _ (by decide)

/-- The short fallback formatter never returns an empty string. -/
theorem short_ne_nil (topic summary lang : Str) :
    local_fallback_formatter_short topic summary lang ≠ [] := by
  simp only [local_fallback_formatter_short]
  by_cases h : pyStartsWith lang ("vi".data) = true
  · rw [if_pos h]
    exact append_ne_nil_right _ _ (by decide)
  · rw [if_neg h]
    exact append_ne_nil_right _ _ (by decide)

/-- When the capability flag is down, the key is falsy, or the long-variant
external call raises, the long entry is exactly the long fallback. -/
theorem gen_long_fallback (env : Env) (topic summary lang : Str)
    (h : env.openai_available = false ∨ truthy env.api_key = false ∨
      ∃ e, call_openai env (PROMPT_LONG (lang_key lang) topic) = Except.error e) :
    (generate_three_scripts env topic summary lang).long =
      local_fallback_formatter_long topic summary lang := by
  simp only [generate_three_scripts]
  rcases h with h | h | ⟨e, he⟩
  · simp [h]
  · simp [h]
  · by_cases hc : (env.openai_available && truthy env.api_key) = true
    · simp [hc, he]
    · simp only [Bool.not_eq_true] at hc
      simp [hc]

/-- When the capability flag is down, the key is falsy, or the from-summary
external call raises, the from-summary entry is exactly its fallback. -/
theorem gen_fromsummary_fallback (env : Env) (topic summary lang : Str)
    (h : env.openai_available = false ∨ truthy env.api_key = false ∨
      ∃ e, call_openai env (PROMPT_FROM_SUMMARY (lang_key lang) summary) = Except.error e) :
    (generate_three_scripts env topic summary lang).from_summary =
      local_fallback_formatter_fromsummary summary lang := by
  simp only [generate_three_scripts]
  rcases h with h | h | ⟨e, he⟩
  · simp [h]
  · simp [h]
  · by_cases hc : (env.openai_available && truthy env.api_key) = true
    · simp [hc, he]
    · simp only [Bool.not_eq_true] at hc
      simp [hc]

/-- When the capability flag is down, the key is falsy, or the short-variant
external call raises, the short entry is exactly the short fallback. -/
theorem gen_short_fallback (env : Env) (topic summary lang : Str)
    (h : env.openai_available = false ∨ truthy env.api_key = false ∨
      ∃ e, call_openai env (PROMPT_SHORT (lang_key lang) topic) = Except.error e) :
    (generate_three_scripts env topic summary lang).short =
      local_fallback_formatter_short topic summary lang := by
  simp only [generate_three_scripts]
  rcases h with h | h | ⟨e, he⟩
  · simp [h]
  · simp [h]
  · by_cases hc : (env.openai_available && truthy env.api_key) = true
    · simp [hc, he]
    · simp only [Bool.not_eq_true] at hc
      simp [hc]

/-- C1: for every input string (and language selector), `split_script_to_segments`
returns exactly 5 segments in the fixed role order [hook, point1, point2,
point3, cta] with durations [8,15,15,15,7], starts [0,8,23,38,53] and ends
[8,23,38,53,60]; the schedule does not depend on the text content. -/
theorem segmenter_fixed_schedule (s lang : Str) :
    (split_script_to_segments s lang).length = 5 ∧
    (split_script_to_segments s lang).map Segment.role =
      [("hook".data), ("point1".data), ("point2".data), ("point3".data), ("cta".data)] ∧
    (split_script_to_segments s lang).map Segment.duration = [8, 15, 15, 15, 7] ∧
    (split_script_to_segments s lang).map Segment.start = [0, 8, 23, 38, 53] ∧
    (split_script_to_segments s lang).map Segment.«end» = [8, 23, 38, 53, 60] :=
  ⟨(seg_sched s lang).2.2.2.2, (seg_sched s lang).1, (seg_sched s lang).2.1,
    (seg_sched s lang).2.2.1, (seg_sched s lang).2.2.2.1⟩

/-- C8: the boolean toggle intended to disable external generation is accepted
but never read: for every environment, topic and language, `process_topic`
produces the identical record (same scripts and segments) whether the toggle
is set or not, and `main` behaves identically under `--no_ai`. -/
theorem use_ai_toggle_no_effect (env : Env) (topic lang out_folder : Str)
    (ta : Option Str) :
    process_topic env topic lang true = process_topic env topic lang false ∧
    mainRun env ta lang out_folder true = mainRun env ta lang out_folder false :=
  ⟨rfl, rfl⟩

/-- C10: every fallback synthesizer's output is invariant under replacing
newline characters in the summary with spaces: each of the three synthesizers
normalizes newlines to spaces before splitting on periods. -/
theorem synthesizers_newline_invariant (topic summary lang : Str) :
    local_fallback_formatter_long topic (replaceNl summary) lang =
      local_fallback_formatter_long topic summary lang ∧
    local_fallback_formatter_fromsummary (replaceNl summary) lang =
      local_fallback_formatter_fromsummary summary lang ∧
    local_fallback_formatter_short topic (replaceNl summary) lang =
      local_fallback_formatter_short topic summary lang := by
  refine ⟨?_, ?_, ?_⟩ <;>
    simp only [local_fallback_formatter_long, local_fallback_formatter_fromsummary,
      local_fallback_formatter_short, sentSplit_replaceNl]

/-- C2 (amended): `generate_three_scripts` is total and each of the three
variant entries of the returned script set is always a populated string; the
entries are additionally non-empty whenever external generation is not
configured (capability absent, or credential unset or empty). The original
unconditional non-emptiness fails when a successful external call returns
whitespace-only content, which strips to the empty string. -/
theorem generate_entries_nonempty_without_external (env : Env) (topic summary lang : Str)
    (h : (env.openai_available && truthy env.api_key) = false) :
    (generate_three_scripts env topic summary lang).long ≠ [] ∧
    (generate_three_scripts env topic summary lang).from_summary ≠ [] ∧
    (generate_three_scripts env topic summary lang).short ≠ [] := by
  have hd : env.openai_available = false ∨ truthy env.api_key = false := by
    cases ha : env.openai_available
    · exact Or.inl rfl
    · cases hk : truthy env.api_key
      · exact Or.inr rfl
      · rw [ha, hk] at h
        exact absurd h (by decide)
  have h1 := gen_long_fallback env topic summary lang
    (hd.elim Or.inl (fun x => Or.inr (Or.inl x)))
  have h2 := gen_fromsummary_fallback env topic summary lang
    (hd.elim Or.inl (fun x => Or.inr (Or.inl x)))
  have h3 := gen_short_fallback env topic summary lang
    (hd.elim Or.inl (fun x => Or.inr (Or.inl x)))
  rw [h1, h2, h3]
  exact ⟨long_ne_nil _ _ _, fromsummary_ne_nil _ _, short_ne_nil _ _ _⟩

/-- Witness for C2 in the no-external environment, at an empty summary. -/
theorem generate_entries_nonempty_without_external_witness :
    (generate_three_scripts env0 ("Napoleon".data) ([] : Str) ("en".data)).long ≠ [] ∧
    (generate_three_scripts env0 ("Napoleon".data) ([] : Str) ("en".data)).from_summary ≠ [] ∧
    (generate_three_scripts env0 ("Napoleon".data) ([] : Str) ("en".data)).short ≠ [] :=
  generate_entries_nonempty_without_external env0 ("Napoleon".data) [] ("en".data) (by decide)

/-- C2 counterexample: with the OpenAI path fully configured and a successful
service response whose message content is a single space, the stripped long
script is the empty string — generation does not always return a non-empty
string. -/
theorem generate_empty_on_whitespace_response :
    envWS.openai_available = true ∧ truthy envWS.api_key = true ∧
    (generate_three_scripts envWS ("T".data) ("S.".data) ("en".data)).long = ([] : Str) :=
  ⟨rfl, rfl, rfl⟩

/-- C3: whenever the credential is absent or empty, the capability is
unavailable, or the external call for a given variant raises, that variant's
entry is exactly the deterministic fallback synthesizer applied to the same
topic, summary and language — and this holds independently per variant. -/
theorem generate_falls_back_per_variant (env : Env) (topic summary lang : Str) :
    ((env.openai_available = false ∨ truthy env.api_key = false ∨
        ∃ e, call_openai env (PROMPT_LONG (lang_key lang) topic) = Except.error e) →
      (generate_three_scripts env topic summary lang).long =
        local_fallback_formatter_long topic summary lang) ∧
    ((env.openai_available = false ∨ truthy env.api_key = false ∨
        ∃ e, call_openai env (PROMPT_FROM_SUMMARY (lang_key lang) summary) = Except.error e) →
      (generate_three_scripts env topic summary lang).from_summary =
        local_fallback_formatter_fromsummary summary lang) ∧
    ((env.openai_available = false ∨ truthy env.api_key = false ∨
        ∃ e, call_openai env (PROMPT_SHORT (lang_key lang) topic) = Except.error e) →
      (generate_three_scripts env topic summary lang).short =
        local_fallback_formatter_short topic summary lang) :=
  ⟨gen_long_fallback env topic summary lang, gen_fromsummary_fallback env topic summary lang,
    gen_short_fallback env topic summary lang⟩

/-- Witness for C3: with no credential configured, every variant equals its
fallback output at concrete inputs. -/
theorem generate_falls_back_per_variant_witness :
    (generate_three_scripts env0 ("Napoleon".data) ("A. B.".data) ("en".data)).long =
      local_fallback_formatter_long ("Napoleon".data) ("A. B.".data) ("en".data) ∧
    (generate_three_scripts env0 ("Napoleon".data) ("A. B.".data) ("en".data)).from_summary =
      local_fallback_formatter_fromsummary ("A. B.".data) ("en".data) ∧
    (generate_three_scripts env0 ("Napoleon".data) ("A. B.".data) ("en".data)).short =
      local_fallback_formatter_short ("Napoleon".data) ("A. B.".data) ("en".data) :=
  ⟨(generate_falls_back_per_variant env0 ("Napoleon".data) ("A. B.".data) ("en".data)).1
      (Or.inl rfl),
   (generate_falls_back_per_variant env0 ("Napoleon".data) ("A. B.".data) ("en".data)).2.1
      (Or.inl rfl),
   (generate_falls_back_per_variant env0 ("Napoleon".data) ("A. B.".data) ("en".data)).2.2
      (Or.inl rfl)⟩

/-- C4 counterexample: on summary "A. B. C. D. E. F. G." with the primary
language, the claimed period-space-joined middle "B. C. D. E. F" does not
occur anywhere in the long synthesizer's output, because the source joins
`sents[1:6]` with single spaces. -/
theorem long_formatter_no_periodspace_middle :
    hasSubstr
      (local_fallback_formatter_long ("Rome".data) ("A. B. C. D. E. F. G.".data) ("vi".data))
      ("B. C. D. E. F".data) = false := by decide

/-- C4 (amended): the long fallback synthesizer returns
"{intro}. {middle}. {closing}. {fixed CTA sentence}" with middle being
sentences[1..6) joined by a single space (not period-space): every
primary-language output ends with the fixed CTA sentence, and on summary
"A. B. C. D. E. F. G." the output is exactly "A. B C D E F. G. " followed by
the CTA — in particular the middle contains "B C D E F". -/
theorem long_formatter_space_join (topic summary : Str) :
    pyEndsWith (local_fallback_formatter_long topic summary ("vi".data))
      (". Nếu bạn muốn tìm hiểu sâu hơn, hãy theo dõi kênh để xem các video tiếp theo.".data) =
      true ∧
    local_fallback_formatter_long ("Rome".data) ("A. B. C. D. E. F. G.".data) ("vi".data) =
      ("A. B C D E F. G. Nếu bạn muốn tìm hiểu sâu hơn, hãy theo dõi kênh để xem các video tiếp theo.".data) ∧
    hasSubstr
      (local_fallback_formatter_long ("Rome".data) ("A. B. C. D. E. F. G.".data) ("vi".data))
      ("B C D E F".data) = true := by
  refine ⟨?_, by decide, by decide⟩
  simp only [local_fallback_formatter_long]
  rw [if_pos (by decide : pyStartsWith ("vi".data) ("vi".data) = true)]
  exact pyEndsWith_append _ _

/-- C5 counterexample: on the two-non-empty-line input "H\nA. B. C." the
point1 segment's text is "A", not the empty string claimed for two-line
inputs. -/
theorem segmenter_two_lines_points_nonempty :
    (linesOf ("H\nA. B. C.".data)).length = 2 ∧
    ((split_script_to_segments ("H\nA. B. C.".data) ("vi".data)).map Segment.text).getD 1 [] =
      ("A".data) ∧
    ("A".data) ≠ ([] : Str) :=
  ⟨by decide, by decide, by decide⟩

/-- C5 (amended): for a segmenter input with exactly two non-empty lines, the
remaining line is treated both as the CTA and as the sole middle line: the
hook is the first line, the three point slots are filled from the remaining
line's period-split sentences (capped at 3 and padded with empty strings),
the CTA is the remaining line itself, and the timing is unchanged. -/
theorem segmenter_two_lines_middle_cta (s lang : Str) (h : (linesOf s).length = 2) :
    (split_script_to_segments s lang).map Segment.text =
      [(linesOf s).headD [],
       (padTo3 (periodSents ((linesOf s).getD 1 []))).getD 0 [],
       (padTo3 (periodSents ((linesOf s).getD 1 []))).getD 1 [],
       (padTo3 (periodSents ((linesOf s).getD 1 []))).getD 2 [],
       (linesOf s).getD 1 []] ∧
    (split_script_to_segments s lang).map Segment.start = [0, 8, 23, 38, 53] ∧
    (split_script_to_segments s lang).map Segment.duration = [8, 15, 15, 15, 7] ∧
    (split_script_to_segments s lang).map Segment.«end» = [8, 23, 38, 53, 60] := by
  obtain ⟨a, b, hab⟩ := List.length_eq_two.mp h
  refine ⟨?_, (seg_sched s lang).2.2.1, (seg_sched s lang).2.1, (seg_sched s lang).2.2.2.1⟩
  simp [split_script_to_segments, assignTimes, hab]

/-- Witness for C5 at the concrete two-line input "H\nA. B. C.". -/
theorem segmenter_two_lines_middle_cta_witness :
    (split_script_to_segments ("H\nA. B. C.".data) ("vi".data)).map Segment.text =
      [(linesOf ("H\nA. B. C.".data)).headD [],
       (padTo3 (periodSents ((linesOf ("H\nA. B. C.".data)).getD 1 []))).getD 0 [],
       (padTo3 (periodSents ((linesOf ("H\nA. B. C.".data)).getD 1 []))).getD 1 [],
       (padTo3 (periodSents ((linesOf ("H\nA. B. C.".data)).getD 1 []))).getD 2 [],
       (linesOf ("H\nA. B. C.".data)).getD 1 []] ∧
    (split_script_to_segments ("H\nA. B. C.".data) ("vi".data)).map Segment.start =
      [0, 8, 23, 38, 53] ∧
    (split_script_to_segments ("H\nA. B. C.".data) ("vi".data)).map Segment.duration =
      [8, 15, 15, 15, 7] ∧
    (split_script_to_segments ("H\nA. B. C.".data) ("vi".data)).map Segment.«end» =
      [8, 23, 38, 53, 60] :=
  segmenter_two_lines_middle_cta ("H\nA. B. C.".data) ("vi".data) (by decide)

/-- C6 counterexample: on a summary with 8 sentences the from-summary
synthesizer's output differs from sentences[0..6) joined by period-space plus
the attribution suffix, because the source joins with single spaces. -/
theorem fromsummary_no_periodspace_join :
    local_fallback_formatter_fromsummary ("S1. S2. S3. S4. S5. S6. S7. S8.".data) ("vi".data) ≠
      joinSep (". ".data) ((sentSplit ("S1. S2. S3. S4. S5. S6. S7. S8.".data)).take 6) ++
        (" Nguồn: Wikipedia.".data) := by decide

/-- C6 (amended): the from-summary fallback synthesizer returns sentences
[0..6) joined by a single space followed by the fixed per-language attribution
suffix: every output ends with the suffix for its language, and on a summary
with 8 sentences only the first 6 appear — the result is exactly
"S1 S2 S3 S4 S5 S6 Nguồn: Wikipedia." and "S7" does not occur in it. -/
theorem fromsummary_space_join_suffix :
    (∀ summary : Str,
      pyEndsWith (local_fallback_formatter_fromsummary summary ("vi".data))
        (" Nguồn: Wikipedia.".data) = true) ∧
    (∀ summary : Str,
      pyEndsWith (local_fallback_formatter_fromsummary summary ("en".data))
        (" Sources: Wikipedia.".data) = true) ∧
    local_fallback_formatter_fromsummary ("S1. S2. S3. S4. S5. S6. S7. S8.".data) ("vi".data) =
      ("S1 S2 S3 S4 S5 S6 Nguồn: Wikipedia.".data) ∧
    hasSubstr
      (local_fallback_formatter_fromsummary ("S1. S2. S3. S4. S5. S6. S7. S8.".data) ("vi".data))
      ("S7".data) = false := by
  refine ⟨fun summary => ?_, fun summary => ?_, by decide, by decide⟩
  · simp only [local_fallback_formatter_fromsummary]
    rw [if_pos (by decide : pyStartsWith ("vi".data) ("vi".data) = true)]
    exact pyEndsWith_append _ _
  · simp only [local_fallback_formatter_fromsummary]
    rw [if_neg (by decide : ¬ pyStartsWith ("en".data) ("vi".data) = true)]
    exact pyEndsWith_append _ _

/-- C7: whenever the summary fetch raises with message `e`, `process_topic`
substitutes the diagnostic placeholder embedding `e`, does not abort, and
still produces a complete record: the placeholder summary (never empty), the
three scripts generated from that placeholder, and the 5-segment sequence of
the short script. -/
theorem process_topic_placeholder_on_fetch_failure (env : Env) (topic lang : Str) (ai : Bool)
    (e : Str) (h : fetch_wikipedia_summary env topic lang = Except.error e) :
    (process_topic env topic lang ai).summary =
      ("[Không lấy được Wikipedia. Lý do: ".data) ++ e ++ ("]".data) ∧
    (process_topic env topic lang ai).summary ≠ [] ∧
    (process_topic env topic lang ai).scripts =
      generate_three_scripts env topic
        (("[Không lấy được Wikipedia. Lý do: ".data) ++ e ++ ("]".data)) lang ∧
    (process_topic env topic lang ai).segments =
      split_script_to_segments (process_topic env topic lang ai).scripts.short lang ∧
    (process_topic env topic lang ai).segments.length = 5 := by
  have hsum : (process_topic env topic lang ai).summary =
      ("[Không lấy được Wikipedia. Lý do: ".data) ++ e ++ ("]".data) := by
    simp [process_topic, h]
  refine ⟨hsum, ?_, ?_, ?_, ?_⟩
  · rw [hsum]
    exact append_ne_nil_right _ _ (by decide)
  · simp [process_topic, h]
  · simp [process_topic, h]
  · simp only [process_topic, h]
    exact (seg_sched _ _).2.2.2.2

/-- Witness for C7: with the wikipedia package unavailable the fetch raises,
and a complete degraded record is still produced. -/
theorem process_topic_placeholder_on_fetch_failure_witness :
    (process_topic env0 ("Napoleon".data) ("vi".data) true).summary ≠ [] ∧
    (process_topic env0 ("Napoleon".data) ("vi".data) true).segments.length = 5 :=
  ⟨(process_topic_placeholder_on_fetch_failure env0 ("Napoleon".data) ("vi".data) true
      ("Package wikipedia không có. Cài: pip install wikipedia".data) rfl).2.1,
   (process_topic_placeholder_on_fetch_failure env0 ("Napoleon".data) ("vi".data) true
      ("Package wikipedia không có. Cài: pip install wikipedia".data) rfl).2.2.2.2⟩

/-- C9 counterexample: a provided topic list that is blank after trimming and
discarding empty entries (" , ") does not cause a usage error — main completes
normally, having processed zero topics. -/
theorem main_blank_topics_no_usage_error :
    mainRun env0 (some (" , ".data)) ("vi".data) ("./outputs".data) false =
      MainResult.completed [] ∧
    mainRun env0 (some (" , ".data)) ("vi".data) ("./outputs".data) false ≠
      MainResult.usage_error := by
  have he : mainRun env0 (some (" , ".data)) ("vi".data) ("./outputs".data) false =
      MainResult.completed [] := rfl
  exact ⟨he, by rw [he]; decide⟩

/-- C9 (amended): a missing required topic list fails immediately with a usage
error before any topic processing begins; but a topic list that is provided
yet empty after trimming and discarding blank entries is not an error — the
program completes normally with zero topics processed. -/
theorem main_usage_only_when_missing (env : Env) (ts lang out_folder : Str) (no_ai : Bool)
    (h : parse_topics ts = []) :
    mainRun env none lang out_folder no_ai = MainResult.usage_error ∧
    mainRun env (some ts) lang out_folder no_ai = MainResult.completed [] := by
  refine ⟨rfl, ?_⟩
  simp [mainRun, h]

/-- Witness for C9 at the blank topic list " , ". -/
theorem main_usage_only_when_missing_witness :
    mainRun env0 none ("vi".data) ("./outputs".data) false = MainResult.usage_error ∧
    mainRun env0 (some (" , ".data)) ("vi".data) ("./outputs".data) false =
      MainResult.completed [] :=
  main_usage_only_when_missing env0 (" , ".data) ("vi".data) ("./outputs".data) false (by decide)
